import Mathlib

/-!
Verification of the Dostify chat orchestration endpoint
(`routes/chat.js`, `router.post('/')`): the tool executor switch, the
sequential tool-call loop, and the two-phase gateway protocol, together
with the stored data model (`models/Chat.js`, `models/Task.js`,
`models/MoodLog.js`).

Shallow embedding conventions:
* JavaScript `parseInt` outcomes are modelled by `PInt` (`nan` covers an
  absent field, a non-numeric string, and any other NaN-producing input).
* JavaScript `new Date(s)` outcomes are modelled by `JsDate` (`invalid`
  is a date whose `getTime()` is NaN); times are abstract integers in
  day units.
* `JSON.parse` applied to the raw argument string of a tool call is
  modelled by the `argsParsed : Except String ToolArgs` field carried by
  the call alongside the raw string.
* Store writes (`save`, `findOneAndUpdate`, `findOneAndDelete`) are pure
  list transformations on a `Store`; Mongo ObjectIds are abstract strings
  generated from a counter.
-/

namespace DServer

/-- Message sender kinds stored by `routes/chat.js` (enum of
`MessageSchema.sender` in `models/Chat.js`). -/
inductive Sender
  | user
  | ai
  | tool
deriving DecidableEq, Repr

/-- Outcome of JavaScript `parseInt` on a field: `nan` when the field is
absent or does not parse, `val n` otherwise. -/
inductive PInt
  | nan
  | val (n : Int)
deriving DecidableEq, Repr

/-- Outcome of JavaScript `new Date(s)`: `invalid` when `getTime()` is
NaN, `valid t` for a date at abstract time `t`. -/
inductive JsDate
  | invalid
  | valid (t : Int)
deriving DecidableEq, Repr

/-- A tool-call entry as stored inside an assistant message
(`MessageSchema.tool_calls` in `models/Chat.js`): id, type tag,
function name and the raw argument JSON string. -/
structure StoredToolCall where
  id : String
  ctype : String
  name : String
  argumentsRaw : String
deriving DecidableEq, Repr

/-- Projection of a stored task sent back by `get_tasks`
(`chat.js` line 405); date formatting (`toISOString().split('T')[0]`)
is abstracted by `isoDay`. -/
structure TaskView where
  id : String
  title : String
  description : String
  dueDate : String
  completed : Bool
deriving DecidableEq, Repr

/-- Projection of a mood log sent back by `get_mood_history`
(`chat.js` line 418). -/
structure MoodView where
  mood : Int
  note : String
  date : String
deriving DecidableEq, Repr

/-- The `get_session_summary` payload (`chat.js` lines 470-477). -/
structure SessionSummary where
  sessionId : String
  title : String
  createdAt : Int
  lastActivity : Int
  messageCount : Nat
  firstUserMessage : Option String
deriving DecidableEq, Repr

/-- Result object produced by the tool executor: success flag plus the
optional fields the switch in `chat.js` populates. -/
structure ToolResult where
  success : Bool
  message : Option String := none
  error : Option String := none
  taskId : Option String := none
  tasks : Option (List TaskView) := none
  moods : Option (List MoodView) := none
  summary : Option SessionSummary := none
deriving DecidableEq, Repr

/-- A planner task (`models/Task.js`): title, optional description,
optional due date, completion flag; `createdAt` from timestamps. -/
structure Task where
  id : String
  title : String
  description : Option String := none
  dueDate : Option Int := none
  completed : Bool := false
  createdAt : Int
deriving DecidableEq, Repr

/-- A mood log entry (`models/MoodLog.js`). -/
structure MoodLog where
  mood : Int
  note : Option String := none
  createdAt : Int
deriving DecidableEq, Repr

/-- The user-scoped document store visible to the executor: planner
tasks, mood logs, the current wall-clock time (day units) and a counter
for fresh ObjectIds. -/
structure Store where
  tasks : List Task := []
  moods : List MoodLog := []
  now : Int := 0
  freshCount : Nat := 0
deriving DecidableEq, Repr

/-- One stored chat message (`MessageSchema` in `models/Chat.js`).
`mtype` is the schema's `type` field. -/
structure Message where
  sender : Sender
  message : Option String := none
  mtype : String := "text"
  imageUrl : Option String := none
  feedback : Option Int := none
  tool_calls : List StoredToolCall := []
  tool_call_id : Option String := none
  tool_name : Option String := none
  toolResultData : Option ToolResult := none
  timestamp : Int
deriving DecidableEq, Repr

/-- One chat session document (`ChatSchema` in `models/Chat.js`). -/
structure Chat where
  sessionId : String
  title : Option String := none
  createdAt : Int := 0
  lastActivity : Int := 0
  messages : List Message := []
deriving DecidableEq, Repr

/-- The parsed argument object of a tool call, with one optional field
per argument the switch in `chat.js` reads.  Integer-expecting fields
carry the `parseInt` outcome, date-expecting fields the `new Date`
outcome. -/
structure ToolArgs where
  mood : PInt := .nan
  note : Option String := none
  days : PInt := .nan
  title : Option String := none
  description : Option String := none
  dueDate : Option JsDate := none
  completed : Option Bool := none
  identifier : Option String := none
  newTitle : Option String := none
  newDescription : Option String := none
  newDueDate : Option JsDate := none
  markCompleted : Option Bool := none
  messageIndex : Option Int := none
  rating : Option Int := none
deriving DecidableEq, Repr

/-- JavaScript truthiness for an optional string: absent and empty are
falsy. -/
def truthyS (o : Option String) : Option String :=
  match o with
  | some s => if s.isEmpty then none else some s
  | none => none

/-- Abstraction of `mongoose.Types.ObjectId.isValid`: a 24-character hex
string or a 12-character string. -/
def isValidObjectId (s : String) : Bool :=
  (s.length == 24 && s.toList.all fun c =>
    c.isDigit || ('a' ≤ c && c ≤ 'f') || ('A' ≤ c && c ≤ 'F')) || s.length == 12

/-- Abstraction of JavaScript date formatting
(`toISOString().split('T')[0]` / `toLocaleDateString`). -/
def isoDay (t : Int) : String := toString t

/-- Fresh Mongo ObjectId for a newly created document, generated from
the store's counter. -/
def mkObjectId (n : Nat) : String := "oid" ++ toString n

/-- Comparison used by `Task.find(...).sort(dueDate asc, createdAt desc)`
in `get_tasks`: ascending due date with missing dates first, then
descending creation time. -/
def taskLE (a b : Task) : Bool :=
  match a.dueDate, b.dueDate with
  | none, none => b.createdAt ≤ a.createdAt
  | none, some _ => true
  | some _, none => false
  | some x, some y => x < y || (x == y && b.createdAt ≤ a.createdAt)

/-- Comparison used by `MoodLog.find(...).sort(createdAt: -1)` in
`get_mood_history`: descending creation time. -/
def moodLE (a b : MoodLog) : Bool := b.createdAt ≤ a.createdAt

/-- Stable insertion into a list sorted by `le`. -/
def insertLE (le : α → α → Bool) (x : α) : List α → List α
  | [] => [x]
  | y :: ys => if le x y then x :: y :: ys else y :: insertLE le x ys

/-- Stable insertion sort, modelling the store's `sort` stage. -/
def sortLE (le : α → α → Bool) : List α → List α
  | [] => []
  | x :: xs => insertLE le x (sortLE le xs)

theorem length_insertLE (le : α → α → Bool) (x : α) (l : List α) :
    (insertLE le x l).length = l.length + 1 := by
  induction l with
  | nil => rfl
  | cons y ys ih =>
    simp only [insertLE]
    split
    · rfl
    · simp [ih]

theorem length_sortLE (le : α → α → Bool) (l : List α) :
    (sortLE le l).length = l.length := by
  induction l with
  | nil => rfl
  | cons x xs ih => simp [sortLE, length_insertLE, ih]

end DServer

namespace DServer

/-- Replace the first element satisfying `p` (model of
`findOneAndUpdate` on the user's task collection). -/
def replaceFirst (p : α → Bool) (f : α → α) : List α → List α
  | [] => []
  | x :: xs => if p x then f x :: xs else x :: replaceFirst p f xs

/-- Remove the first element satisfying `p` (model of
`findOneAndDelete`). -/
def removeFirst (p : α → Bool) : List α → List α
  | [] => []
  | x :: xs => if p x then xs else x :: removeFirst p xs

/-- Task-view mapping of `get_tasks` (`chat.js` line 405); `|| 'N/A'`
falls back on falsy (absent or empty) fields. -/
def taskView (t : Task) : TaskView :=
  { id := t.id, title := t.title,
    description := (truthyS t.description).getD "N/A",
    dueDate := match t.dueDate with | some d => isoDay d | none => "N/A",
    completed := t.completed }

/-- Mood-view mapping of `get_mood_history` (`chat.js` line 418). -/
def moodView (m : MoodLog) : MoodView :=
  { mood := m.mood, note := (truthyS m.note).getD "N/A", date := isoDay m.createdAt }

/-- Effective day window of `get_mood_history`:
`const days = parseInt(functionArgs.days) || 30` — NaN and 0 are falsy,
so both default to 30 (`chat.js` line 410). -/
def jsDaysOr30 : PInt → Int
  | .nan => 30
  | .val n => if n == 0 then 30 else n

/-- The `get_tasks` store filter (`chat.js` lines 399-400): user scope
plus the optional completed flag. -/
def getTasksFilter (functionArgs : ToolArgs) (t : Task) : Bool :=
  match functionArgs.completed with
  | some b => t.completed == b
  | none => true

/-- The `get_mood_history` store filter (`chat.js` lines 412-414):
entries created since `now - days`. -/
def moodWindowFilter (now days : Int) (m : MoodLog) : Bool :=
  now - days ≤ m.createdAt

/-- The identifier query of `update_task` / `delete_task`
(`chat.js` lines 425-427, 458-460): by ObjectId when the identifier is a
valid one, else by exact title, within the user scope. -/
def taskQuery (identifier : String) (t : Task) : Bool :=
  if isValidObjectId identifier then t.id == identifier else t.title == identifier

/-- Field changes accumulated by `update_task` (`updateFields.$set`). -/
structure TaskUpdate where
  title : Option String := none
  description : Option String := none
  completed : Option Bool := none
  dueDate : Option Int := none
deriving DecidableEq, Repr

/-- Apply a `$set` update to a task. -/
def applyUpdate (u : TaskUpdate) (t : Task) : Task :=
  { t with
    title := u.title.getD t.title,
    description := match u.description with | some d => some d | none => t.description,
    completed := u.completed.getD t.completed,
    dueDate := match u.dueDate with | some d => some d | none => t.dueDate }

/-- The `log_mood` case of the executor switch (`chat.js` lines 368-374). -/
def execLogMood (functionArgs : ToolArgs) (st : Store) (chat : Chat) :
    Except String (ToolResult × Store × Chat) :=
  match functionArgs.mood with
  | .nan => .error "Mood value must be an integer between 1 and 10."
  | .val moodValue =>
    if moodValue < 1 ∨ moodValue > 10 then
      .error "Mood value must be an integer between 1 and 10."
    else
      let moodDoc : MoodLog := { mood := moodValue, note := functionArgs.note, createdAt := st.now }
      .ok ({ success := true,
             message := some ("Mood (" ++ toString moodValue ++ ") logged successfully.") },
           { st with moods := st.moods ++ [moodDoc] }, chat)

/-- The `create_task` case (`chat.js` lines 376-396); a missing or empty
title makes the mongoose `save` throw a validation error. -/
def execCreateTask (functionArgs : ToolArgs) (st : Store) (chat : Chat) :
    Except String (ToolResult × Store × Chat) :=
  let parsedDueDate : Option Int :=
    match functionArgs.dueDate with
    | none => none
    | some .invalid => none
    | some (.valid t) => some t
  match truthyS functionArgs.title with
  | none =>
    .error "Task validation failed: title is required."
  | some title =>
    let taskDoc : Task :=
      { id := mkObjectId st.freshCount, title := title,
        description := functionArgs.description, dueDate := parsedDueDate,
        completed := false, createdAt := st.now }
    let taskMessage :=
      "Task \"" ++ title ++ "\" created successfully." ++
        (match parsedDueDate with
         | some t => " Due: " ++ isoDay t
         | none => "")
    .ok ({ success := true, message := some taskMessage, taskId := some taskDoc.id },
         { st with tasks := st.tasks ++ [taskDoc], freshCount := st.freshCount + 1 }, chat)

/-- The `get_tasks` case (`chat.js` lines 398-407): filter, sort, take
at most 25, and answer with views or an explanatory message. -/
def execGetTasks (functionArgs : ToolArgs) (st : Store) (chat : Chat) :
    Except String (ToolResult × Store × Chat) :=
  let filtered := st.tasks.filter (getTasksFilter functionArgs)
  let tasks := (sortLE taskLE filtered).take 25
  if tasks.length == 0 then
    .ok ({ success := true, message := some "No tasks found matching the criteria." }, st, chat)
  else
    .ok ({ success := true, tasks := some (tasks.map taskView) }, st, chat)

/-- The `get_mood_history` case (`chat.js` lines 409-420): NaN or zero
day counts default to 30, negative ones throw, and the windowed query is
capped at 50 entries. -/
def execGetMoodHistory (functionArgs : ToolArgs) (st : Store) (chat : Chat) :
    Except String (ToolResult × Store × Chat) :=
  let days := jsDaysOr30 functionArgs.days
  if days ≤ 0 then
    .error "Number of days must be a positive integer."
  else
    let moods := (sortLE moodLE (st.moods.filter (moodWindowFilter st.now days))).take 50
    if moods.length == 0 then
      .ok ({ success := true,
             message := some ("No mood logs found in the last " ++ toString days ++ " days.") },
           st, chat)
    else
      .ok ({ success := true, moods := some (moods.map moodView) }, st, chat)

/-- The `update_task` case (`chat.js` lines 422-453). -/
def execUpdateTask (functionArgs : ToolArgs) (st : Store) (chat : Chat) :
    Except String (ToolResult × Store × Chat) :=
  match truthyS functionArgs.identifier with
  | none => .error "Task identifier (title or ID) is required for update."
  | some identifier =>
    let u0 : TaskUpdate := {}
    let u1 := match truthyS functionArgs.newTitle with
      | some nt => { u0 with title := some nt }
      | none => u0
    let u2 := match functionArgs.newDescription with
      | some nd => { u1 with description := some nd }
      | none => u1
    let u3 := match functionArgs.markCompleted with
      | some mc => { u2 with completed := some mc }
      | none => u2
    let u4 := match functionArgs.newDueDate with
      | some (.valid t) => { u3 with dueDate := some t }
      | some .invalid => u3
      | none => u3
    let changesMade :=
      (truthyS functionArgs.newTitle).isSome || functionArgs.newDescription.isSome ||
        functionArgs.markCompleted.isSome ||
        (match functionArgs.newDueDate with | some (.valid _) => true | _ => false)
    if ¬ changesMade then
      .ok ({ success := false, message := some "No changes provided for the task update." }, st, chat)
    else
      match st.tasks.find? (taskQuery identifier) with
      | none =>
        .ok ({ success := false,
               error := some ("Task with identifier \"" ++ identifier ++ "\" not found or access denied.") },
             st, chat)
      | some t =>
        .ok ({ success := true,
               message := some ("Task \"" ++ (applyUpdate u4 t).title ++ "\" updated successfully.") },
             { st with tasks := replaceFirst (taskQuery identifier) (applyUpdate u4) st.tasks }, chat)

/-- The `delete_task` case (`chat.js` lines 455-467). -/
def execDeleteTask (functionArgs : ToolArgs) (st : Store) (chat : Chat) :
    Except String (ToolResult × Store × Chat) :=
  match truthyS functionArgs.identifier with
  | none => .error "Task identifier (title or ID) is required for deletion."
  | some deleteIdentifier =>
    match st.tasks.find? (taskQuery deleteIdentifier) with
    | none =>
      .ok ({ success := false,
             error := some ("Task with identifier \"" ++ deleteIdentifier ++ "\" not found or access denied.") },
           st, chat)
    | some t =>
      .ok ({ success := true, message := some ("Task \"" ++ t.title ++ "\" deleted successfully.") },
           { st with tasks := removeFirst (taskQuery deleteIdentifier) st.tasks }, chat)

/-- The `get_session_summary` case (`chat.js` lines 469-479), a pure
read of the already-loaded session. -/
def execGetSessionSummary (st : Store) (chat : Chat) :
    Except String (ToolResult × Store × Chat) :=
  let firstUserMessage :=
    match chat.messages.find? (fun m => m.sender == Sender.user) with
    | some m =>
      match m.message with
      | some s => if (s.take 100).isEmpty then none else some (s.take 100)
      | none => none
    | none => none
  let summary : SessionSummary :=
    { sessionId := chat.sessionId,
      title := (truthyS chat.title).getD ("Chat started on " ++ isoDay chat.createdAt),
      createdAt := chat.createdAt, lastActivity := chat.lastActivity,
      messageCount := chat.messages.length, firstUserMessage := firstUserMessage }
  .ok ({ success := true, summary := some summary }, st, chat)

/-- The `give_feedback` case (`chat.js` lines 481-496): the index is
used directly against the message array (0 is the OLDEST message), the
target must be an `ai` message, the rating must lie in 1..5, and only
then is the `feedback` field of the target set. -/
def execGiveFeedback (functionArgs : ToolArgs) (st : Store) (chat : Chat) :
    Except String (ToolResult × Store × Chat) :=
  match functionArgs.messageIndex with
  | none =>
    .error "Feedback can only be given for AI messages at the specified index."
  | some messageIndex =>
    if messageIndex < 0 ∨ (chat.messages.length : Int) ≤ messageIndex then
      .error ("Invalid message index " ++ toString messageIndex ++ ". Session has " ++
        toString chat.messages.length ++ " messages.")
    else
      match chat.messages[messageIndex.toNat]? with
      | none => .error "Feedback can only be given for AI messages at the specified index."
      | some targetMessage =>
        if targetMessage.sender ≠ Sender.ai then
          .error "Feedback can only be given for AI messages at the specified index."
        else
          match functionArgs.rating with
          | none => .error "Rating must be an integer between 1 and 5."
          | some rating =>
            if rating < 1 ∨ rating > 5 then
              .error "Rating must be an integer between 1 and 5."
            else
              .ok ({ success := true,
                     message := some ("Feedback (" ++ toString rating ++
                       ") recorded for message at index " ++ toString messageIndex ++ ".") },
                   st,
                   { chat with messages :=
                      chat.messages.set messageIndex.toNat { targetMessage with feedback := some rating } })

/-- The tool executor: the `switch (functionName)` of `chat.js`
lines 367-501.  `Except.error e` models a thrown `Error(e)` (caught by
the per-call `catch (toolError)`); `Except.ok` returns the result object
together with the updated store and session. -/
def execTool (functionName : String) (functionArgs : ToolArgs) (st : Store) (chat : Chat) :
    Except String (ToolResult × Store × Chat) :=
  match functionName with
  | "log_mood" => execLogMood functionArgs st chat
  | "create_task" => execCreateTask functionArgs st chat
  | "get_tasks" => execGetTasks functionArgs st chat
  | "get_mood_history" => execGetMoodHistory functionArgs st chat
  | "update_task" => execUpdateTask functionArgs st chat
  | "delete_task" => execDeleteTask functionArgs st chat
  | "get_session_summary" => execGetSessionSummary st chat
  | "give_feedback" => execGiveFeedback functionArgs st chat
  | _ =>
    .ok ({ success := false,
           error := some ("Tool \x27" ++ functionName ++ "\x27 is not implemented or recognized.") },
         st, chat)

end DServer

namespace DServer

/-- A tool call as received from the model
(`responseMessage.tool_calls[i]`): id, type, function name, the raw
argument JSON string, and the outcome `JSON.parse` has on that string
(`Except.error` models a thrown parse error). -/
structure ToolCall where
  id : String
  ctype : String
  fnName : String
  argumentsRaw : String
  argsParsed : Except String ToolArgs
deriving Repr

/-- Entry of `executedToolResults` (`chat.js` lines 524-528), sent back
to the model as a wire tool message. -/
structure ExecutedToolResult where
  tool_call_id : String
  name : String
  result : ToolResult
deriving DecidableEq, Repr

/-- Accumulated effect of the tool-execution loop. -/
structure LoopOut where
  store : Store
  chat : Chat
  executedToolResults : List ExecutedToolResult
  toolResultsForClient : List ToolResult
deriving Repr

/-- The error result recorded when `JSON.parse` fails on a call's
arguments (`chat.js` line 346). -/
def invalidArgsResult (functionName : String) : ToolResult :=
  { success := false,
    error := some ("Invalid arguments format received from AI for " ++ functionName ++ ".") }

/-- The tool message stored for an argument-parse failure
(`chat.js` lines 349-357). -/
def invalidArgsToolMessage (now : Int) (tc : ToolCall) : Message :=
  { sender := .tool,
    message := some ("Error executing tool \x27" ++ tc.fnName ++ "\x27: Invalid arguments provided by AI."),
    mtype := "tool_result", tool_call_id := some tc.id, tool_name := some tc.fnName,
    toolResultData := some (invalidArgsResult tc.fnName), timestamp := now }

/-- The error result produced by the per-call `catch (toolError)`
(`chat.js` line 507). -/
def serverErrorResult (functionName e : String) : ToolResult :=
  { success := false,
    error := some ("Server error executing tool \x27" ++ functionName ++ "\x27: " ++ e) }

/-- The tool message stored for an executed call (`chat.js` lines
511-519); the summary falls back when `result.message` is falsy. -/
def toolResultMessage (now : Int) (tc : ToolCall) (currentToolResult : ToolResult) : Message :=
  { sender := .tool,
    message := some (match truthyS currentToolResult.message with
      | some s => s
      | none =>
        if currentToolResult.success then "Executed " ++ tc.fnName
        else "Failed to execute " ++ tc.fnName),
    mtype := "tool_result", tool_call_id := some tc.id, tool_name := some tc.fnName,
    toolResultData := some currentToolResult, timestamp := now }

/-- Append one message to a session's message sequence. -/
def pushMsg (chat : Chat) (m : Message) : Chat :=
  { chat with messages := chat.messages ++ [m] }

/-- The sequential tool-execution loop (`chat.js` lines 332-530):
non-function calls are skipped; a call whose arguments fail to parse
records an error result and continues; otherwise the executor runs and a
thrown error is caught into a `serverErrorResult`.  One tool message is
stored per processed call, in request order, and the store/session state
is threaded through the calls. -/
def runToolCalls (now : Int) (st : Store) (chat : Chat) : List ToolCall → LoopOut
  | [] => { store := st, chat := chat, executedToolResults := [], toolResultsForClient := [] }
  | tc :: rest =>
    if tc.ctype ≠ "function" then
      runToolCalls now st chat rest
    else
      match tc.argsParsed with
      | .error _ =>
        let errorResult := invalidArgsResult tc.fnName
        let out := runToolCalls now st (pushMsg chat (invalidArgsToolMessage now tc)) rest
        { out with
          executedToolResults :=
            { tool_call_id := tc.id, name := tc.fnName, result := errorResult } :: out.executedToolResults,
          toolResultsForClient := errorResult :: out.toolResultsForClient }
      | .ok functionArgs =>
        let step :=
          match execTool tc.fnName functionArgs st chat with
          | .ok x => x
          | .error e => (serverErrorResult tc.fnName e, st, chat)
        let currentToolResult := step.1
        let out := runToolCalls now step.2.1 (pushMsg step.2.2 (toolResultMessage now tc currentToolResult)) rest
        { out with
          executedToolResults :=
            { tool_call_id := tc.id, name := tc.fnName, result := currentToolResult } :: out.executedToolResults,
          toolResultsForClient := currentToolResult :: out.toolResultsForClient }

/-- Wire content of a gateway message.  Serialization of result objects
(`JSON.stringify`) is kept structural; `missingToolData` is the literal
fallback error string of `chat.js` line 222. -/
inductive WireContent
  | parts (text : String) (imageUrl : Option String)
  | text (s : Option String)
  | toolJson (r : ToolResult)
  | missingToolData
deriving Repr

/-- A tool-call entry in a wire assistant message. -/
structure WireToolCall where
  id : String
  ctype : String
  name : String
  argumentsStr : String
deriving DecidableEq, Repr

/-- One entry of the `messages` array sent to the gateway. -/
structure WireMessage where
  role : String
  content : WireContent
  tool_calls : Option (List WireToolCall) := none
  tool_call_id : Option String := none
  name : Option String := none
deriving Repr

/-- The history mapper (`chat.js` lines 189-227): maps one stored
message to its wire shape.  The source drops unknown sender kinds; the
stored model only ever contains the three known kinds, so the mapping is
total here. -/
def mapStoredMessage (m : Message) : WireMessage :=
  match m.sender with
  | .user =>
    { role := "user",
      content := .parts (m.message.getD "")
        (if m.mtype == "image" then truthyS m.imageUrl else none) }
  | .ai =>
    if m.tool_calls.length > 0 then
      { role := "assistant", content := .text m.message,
        tool_calls := some (((m.tool_calls.map fun tc =>
          ({ id := tc.id, ctype := if tc.ctype.isEmpty then "function" else tc.ctype,
             name := tc.name, argumentsStr := tc.argumentsRaw } : WireToolCall))).filter
          fun tc => ¬ tc.id.isEmpty && ¬ tc.name.isEmpty) }
    else
      { role := "assistant", content := .text m.message }
  | .tool =>
    { role := "tool", tool_call_id := m.tool_call_id, name := m.tool_name,
      content :=
        match m.toolResultData with
        | some r => .toolJson r
        | none =>
          match truthyS m.message with
          | some s => .text (some s)
          | none => .missingToolData }

/-- A tool definition as advertised to the model; the JSON-schema
`parameters` object is not consumed by any verified property and is
abstracted away. -/
structure ToolDefinition where
  name : String
  description : String
deriving DecidableEq, Repr

/-- The `aiTools` array of `chat.js` lines 15-141 (names and
descriptions). -/
def aiTools : List ToolDefinition :=
  [ { name := "log_mood", description := "Log a mood entry for the current user" },
    { name := "get_mood_history", description := "Get the recent mood log history for the current user" },
    { name := "create_task", description := "Create a planner task for the current user" },
    { name := "get_tasks", description := "Get a list of planner tasks for the current user" },
    { name := "update_task", description := "Update an existing planner task for the current user by its title or ID" },
    { name := "delete_task", description := "Delete a planner task for the current user by its title or ID" },
    { name := "get_session_summary", description := "Get a summary of the current chat session based on its ID" },
    { name := "give_feedback", description := "Submit feedback (rating 1-5) for a specific AI message in the current chat session" } ]

/-- A gateway request payload (`apiPayload` / `followUpPayload`). -/
structure ApiPayload where
  model : String
  messages : List WireMessage
  tools : Option (List ToolDefinition) := none
  tool_choice : Option String := none
  referrer : String
deriving Repr

/-- Outcome of the initial gateway call as the orchestrator observes it:
transport failure, a response missing `choices[0].message`, or the
response message (content, optional tool-call list, finish reason). -/
inductive InitResult
  | netError
  | badShape
  | ok (content : Option String) (tool_calls : Option (List ToolCall)) (finish_reason : String)
deriving Repr

/-- Outcome of the follow-up gateway call: transport failure, or the
final content (`none` when `choices[0].message.content` is missing). -/
inductive FollowResult
  | netError
  | ok (content : Option String)
deriving Repr

/-- The HTTP response of the chat turn endpoint. -/
inductive ChatResponse
  | initialFailure (message : String)
  | invalidShape (message : String)
  | followUpFailure (message : String) (toolResults : List ToolResult) (sessionId : String) (timestamp : Int)
  | success (messages : List Message) (toolResults : Option (List ToolResult)) (sessionId : String) (timestamp : Int)
deriving Repr

/-- Everything a chat turn leaves behind: the store, the saved session
document, the gateway request payloads issued in order, and the HTTP
response. -/
structure TurnOut where
  store : Store
  chat : Chat
  payloads : List ApiPayload
  response : ChatResponse
deriving Repr

/-- The inbound user message persisted by the turn (`chat.js` lines
237-244). -/
def userMessageToSave (message : String) (mtype : String) (imageUrl : Option String) (now : Int) : Message :=
  { sender := .user, message := some message,
    mtype := if mtype.isEmpty then "text" else mtype,
    imageUrl := if mtype == "image" then truthyS imageUrl else none,
    timestamp := now }

/-- The session right after step 2 of the turn: the inbound user message
appended and the activity timestamp refreshed (`chat.js` lines 245-246). -/
def chatWithUserMessage (chat0 : Chat) (message mtype : String) (imageUrl : Option String)
    (now : Int) : Chat :=
  { chat0 with
    messages := chat0.messages ++ [userMessageToSave message mtype imageUrl now],
    lastActivity := now }

/-- The assistant message storing the model's tool-call request
(`chat.js` lines 311-324). -/
def assistantToolCallRequestMessage (content : Option String) (calls : List ToolCall) (now : Int) : Message :=
  { sender := .ai, message := content, mtype := "tool_request",
    tool_calls := calls.map fun tc =>
      { id := tc.id, ctype := tc.ctype, name := tc.fnName, argumentsRaw := tc.argumentsRaw },
    timestamp := now }

/-- Steps 7-8 of the turn (`chat.js` lines 600-633): store the final
assistant message only when its content is truthy and has a non-blank
trim, refresh the activity timestamp, save, and answer with the last 15
messages plus the tool results when any exist. -/
def finishTurn (st : Store) (chat : Chat) (ps : List ApiPayload)
    (finalAiMessageContent : Option String) (toolResultsForClient : List ToolResult)
    (now : Int) : TurnOut :=
  let chatA :=
    match finalAiMessageContent with
    | some s =>
      if ¬ s.trim.isEmpty then
        pushMsg chat { sender := .ai, message := some s, mtype := "text", timestamp := now }
      else chat
    | none => chat
  let chatB := { chatA with lastActivity := now }
  let messagesToSend := chatB.messages.drop (chatB.messages.length - 15)
  { store := st, chat := chatB, payloads := ps,
    response := .success messagesToSend
      (if toolResultsForClient.length > 0 then some toolResultsForClient else none)
      chatB.sessionId now }

/-- The chat turn orchestrator (`router.post('/')` in `chat.js`, lines
170-644), with both gateway call outcomes supplied as inputs.  Returns
the final store, the saved session, the gateway payload trace and the
HTTP response. -/
def handleChatPost (st : Store) (chat0 : Chat) (message : String) (mtype : String)
    (imageUrl : Option String) (aiModel : String) (referrer : String) (now : Int)
    (initResp : InitResult) (followResp : FollowResult) : TurnOut :=
  let CONTEXT_LIMIT := 10
  let pastHistory := (chat0.messages.drop (chat0.messages.length - CONTEXT_LIMIT)).map mapStoredMessage
  let currentUserWire : WireMessage :=
    { role := "user",
      content := .parts message (if mtype == "image" then truthyS imageUrl else none) }
  let history := pastHistory ++ [currentUserWire]
  let chat1 := chatWithUserMessage chat0 message mtype imageUrl now
  let apiPayload : ApiPayload :=
    { model := aiModel, messages := history,
      tools := if aiTools.length > 0 then some aiTools else none,
      tool_choice := if aiTools.length > 0 then some "auto" else none,
      referrer := referrer }
  match initResp with
  | .netError =>
    { store := st, chat := chat1, payloads := [apiPayload],
      response := .initialFailure "Error: The AI service failed to respond. Please try again later." }
  | .badShape =>
    { store := st, chat := chat1, payloads := [apiPayload],
      response := .invalidShape "Error: Received an unexpected response format from the AI service." }
  | .ok content tool_calls finish_reason =>
    if tool_calls.isSome && finish_reason == "tool_calls" then
      let calls := tool_calls.getD []
      let chat2 := pushMsg chat1 (assistantToolCallRequestMessage content calls now)
      let assistantWire : WireMessage :=
        { role := "assistant", content := .text content,
          tool_calls := some (calls.map fun tc =>
            { id := tc.id, ctype := tc.ctype, name := tc.fnName, argumentsStr := tc.argumentsRaw }) }
      let loopOut := runToolCalls now st chat2 calls
      let followUpHistory := (history ++ [assistantWire]) ++
        loopOut.executedToolResults.map fun tr =>
          ({ role := "tool", tool_call_id := some tr.tool_call_id, name := some tr.name,
             content := .toolJson tr.result } : WireMessage)
      let followUpPayload : ApiPayload :=
        { model := aiModel, messages := followUpHistory, referrer := referrer }
      match followResp with
      | .netError =>
        { store := loopOut.store,
          chat := loopOut.chat,
          payloads := [apiPayload, followUpPayload],
          response := .followUpFailure
            "Executed requested actions, but the AI failed to provide a final response."
            loopOut.toolResultsForClient loopOut.chat.sessionId now }
      | .ok fcontent =>
        let finalAiMessageContent : Option String := truthyS fcontent
        finishTurn loopOut.store loopOut.chat [apiPayload, followUpPayload]
          finalAiMessageContent loopOut.toolResultsForClient now
    else
      finishTurn st chat1 [apiPayload] content [] now

end DServer

namespace DServer

/-- Strip the mutable `feedback` field: the only field of an existing
stored message that any tool execution may change (`give_feedback`). -/
def dropFeedback (m : Message) : Message := { m with feedback := none }

/-- Shape of a stored message relevant to the request/result pairing
invariant: its sender, the call ids it requests (assistant messages) and
the call id it answers (tool messages). -/
structure PairShape where
  sender : Sender
  callIds : List String
  callId : Option String
deriving DecidableEq, Repr

def pairShape (m : Message) : PairShape :=
  { sender := m.sender, callIds := m.tool_calls.map fun tc => tc.id, callId := m.tool_call_id }

def pairMap (msgs : List Message) : List PairShape := msgs.map pairShape

/-- Number of assistant-requested tool-call entries carrying id `tid`
in `l`. -/
def aiIdCount (l : List PairShape) (tid : String) : Nat :=
  (l.map fun s => if s.sender == Sender.ai then s.callIds.count tid else 0).sum

/-- Pairing check, walking the sequence while accumulating the prefix
seen so far: every tool-kind shape must answer exactly one
assistant-requested call id occurring strictly earlier. -/
def pairingAux (seen : List PairShape) : List PairShape → Bool
  | [] => true
  | s :: rest =>
    (if s.sender == Sender.tool then
      match s.callId with
      | some tid => aiIdCount seen tid == 1
      | none => false
    else true) && pairingAux (seen ++ [s]) rest

/-- The pairing invariant (spec section 3 / property P1): every
tool-kind message's call identifier corresponds to exactly one
assistant tool-call-request entry earlier in the same session. -/
def pairingOk (msgs : List Message) : Bool := pairingAux [] (pairMap msgs)

theorem aiIdCount_append (a b : List PairShape) (tid : String) :
    aiIdCount (a ++ b) tid = aiIdCount a tid + aiIdCount b tid := by
  simp [aiIdCount]

theorem aiIdCount_singleton (s : PairShape) (tid : String) :
    aiIdCount [s] tid = if s.sender == Sender.ai then s.callIds.count tid else 0 := by
  simp [aiIdCount]

theorem pairingAux_append (a : List PairShape) : ∀ (seen b : List PairShape),
    pairingAux seen (a ++ b) = (pairingAux seen a && pairingAux (seen ++ a) b) := by
  induction a with
  | nil => intro seen b; simp [pairingAux]
  | cons s a ih =>
    intro seen b
    simp only [List.cons_append, pairingAux, ih, Bool.and_assoc, List.append_assoc,
      List.singleton_append, List.append_eq, List.nil_append]

theorem pairingAux_nonTool : ∀ (seen l : List PairShape),
    (∀ s ∈ l, s.sender ≠ Sender.tool) → pairingAux seen l = true := by
  intro seen l
  induction l generalizing seen with
  | nil => intro _; rfl
  | cons s rest ih =>
    intro h
    have hs : (s.sender == Sender.tool) = false := by
      simp only [beq_eq_false_iff_ne, ne_eq]
      exact h s (by simp)
    simp only [pairingAux, hs, Bool.false_eq_true, if_false, Bool.true_and]
    exact ih (seen ++ [s]) fun x hx => h x (by simp [hx])

theorem pairingAux_toolShapes : ∀ (ids : List String) (seen : List PairShape),
    (∀ i ∈ ids, aiIdCount seen i = 1) →
    pairingAux seen (ids.map fun i =>
      ({ sender := Sender.tool, callIds := [], callId := some i } : PairShape)) = true := by
  intro ids
  induction ids with
  | nil => intro seen _; rfl
  | cons i ids ih =>
    intro seen h
    simp only [List.map_cons, pairingAux]
    have h1 : aiIdCount seen i = 1 := h i (by simp)
    have h2 : ∀ j ∈ ids, aiIdCount (seen ++
        [({ sender := Sender.tool, callIds := [], callId := some i } : PairShape)]) j = 1 := by
      intro j hj
      rw [aiIdCount_append, aiIdCount_singleton]
      simp only [show ((Sender.tool == Sender.ai) = false) from rfl, if_false]
      simpa using h j (by simp [hj])
    simp [h1, ih _ h2]

theorem map_dropFeedback_set (msgs : List Message) :
    ∀ (i : Nat) (m : Message), msgs[i]? = some m → ∀ (r : Int),
    (msgs.set i { m with feedback := some r }).map dropFeedback =
      msgs.map dropFeedback := by
  induction msgs with
  | nil => intro i m h; simp at h
  | cons x xs ih =>
    intro i m h r
    cases i with
    | zero =>
      simp only [List.getElem?_cons_zero, Option.some.injEq] at h
      subst h
      simp [List.set, dropFeedback]
    | succ n =>
      simp only [List.getElem?_cons_succ] at h
      simp [List.set, ih n m h r]

/-- Any successful tool execution leaves the session identifier intact
and changes existing messages at most in their `feedback` field. -/
theorem execTool_chat_shape (functionName : String) (functionArgs : ToolArgs)
    (st : Store) (chat : Chat) (r : ToolResult) (st2 : Store) (chat2 : Chat)
    (h : execTool functionName functionArgs st chat = .ok (r, st2, chat2)) :
    chat2.sessionId = chat.sessionId ∧
    chat2.messages.map dropFeedback = chat.messages.map dropFeedback := by
  unfold execTool execLogMood execCreateTask execGetTasks execGetMoodHistory execUpdateTask
    execDeleteTask execGetSessionSummary execGiveFeedback at h
  repeat' split at h
  all_goals try dsimp only [] at h
  all_goals repeat' split at h
  all_goals try exact (Except.noConfusion h)
  all_goals
    (injection h with h
     injection h with h1 h
     injection h with h2 h3
     subst h3)
  all_goals refine ⟨rfl, ?_⟩
  all_goals try rfl
  exact map_dropFeedback_set chat.messages _ _ (by assumption) _

end DServer

namespace DServer

theorem comp_pairShape_dropFeedback : pairShape ∘ dropFeedback = pairShape :=
  funext fun _ => rfl

theorem pairMap_eq_of_dropFeedback (a b : List Message)
    (h : a.map dropFeedback = b.map dropFeedback) : pairMap a = pairMap b := by
  have h2 := congrArg (List.map pairShape) h
  simpa [pairMap, List.map_map, comp_pairShape_dropFeedback] using h2

/-- Shape of a stored message relevant to result persistence: its
sender, the call id it answers and the result payload it stores. -/
def resShape (m : Message) : Sender × Option String × Option ToolResult :=
  (m.sender, m.tool_call_id, m.toolResultData)

def resMap (msgs : List Message) : List (Sender × Option String × Option ToolResult) :=
  msgs.map resShape

theorem comp_resShape_dropFeedback : resShape ∘ dropFeedback = resShape :=
  funext fun _ => rfl

theorem resMap_eq_of_dropFeedback (a b : List Message)
    (h : a.map dropFeedback = b.map dropFeedback) : resMap a = resMap b := by
  have h2 := congrArg (List.map resShape) h
  simpa [resMap, List.map_map, comp_resShape_dropFeedback] using h2

/-- A tool call the loop actually processes (`toolCall.type !== 'function'` is
skipped). -/
def toolCallIsFn (tc : ToolCall) : Bool := tc.ctype == "function"

theorem runToolCalls_sessionId (now : Int) (calls : List ToolCall) : ∀ st chat,
    (runToolCalls now st chat calls).chat.sessionId = chat.sessionId := by
  induction calls with
  | nil => intro st chat; rfl
  | cons tc rest ih =>
    intro st chat
    unfold runToolCalls
    split
    · exact ih st chat
    · split
      · simpa [pushMsg] using ih st (pushMsg chat (invalidArgsToolMessage now tc))
      · rename_i harg
        dsimp only []
        split
        · rename_i x hexec
          have hc := (execTool_chat_shape _ _ _ _ _ _ _ hexec).1
          simpa [pushMsg, hc] using ih x.2.1 (pushMsg x.2.2 (toolResultMessage now tc x.1))
        · simpa [pushMsg] using
            ih st (pushMsg chat (toolResultMessage now tc (serverErrorResult tc.fnName _)))

theorem pairMap_append (a b : List Message) : pairMap (a ++ b) = pairMap a ++ pairMap b := by
  simp [pairMap]

theorem runToolCalls_pairMap (now : Int) (calls : List ToolCall) : ∀ st chat,
    pairMap (runToolCalls now st chat calls).chat.messages =
      pairMap chat.messages ++
        (calls.filter toolCallIsFn).map fun tc =>
          ({ sender := Sender.tool, callIds := [], callId := some tc.id } : PairShape) := by
  induction calls with
  | nil => intro st chat; simp [runToolCalls]
  | cons tc rest ih =>
    intro st chat
    unfold runToolCalls
    split
    · rename_i hne
      have hfn : toolCallIsFn tc = false := by
        simp [toolCallIsFn, beq_eq_false_iff_ne, hne]
      rw [ih st chat]
      simp [List.filter_cons, hfn]
    · rename_i hne
      have hfn : toolCallIsFn tc = true := by
        simp only [Decidable.not_not] at hne
        simp [toolCallIsFn, hne]
      split
      · dsimp only []
        rw [ih st (pushMsg chat (invalidArgsToolMessage now tc))]
        simp [pushMsg, pairMap_append, List.filter_cons, hfn, pairMap, pairShape,
          invalidArgsToolMessage]
      · rename_i harg
        dsimp only []
        split
        · rename_i x hexec
          have hc := pairMap_eq_of_dropFeedback _ _ (execTool_chat_shape _ _ _ _ _ _ _ hexec).2
          rw [ih x.2.1 (pushMsg x.2.2 (toolResultMessage now tc x.1))]
          simp [pushMsg, pairMap_append, List.filter_cons, hfn, hc, pairMap, pairShape,
            toolResultMessage]
          exact hc
        · rw [ih st (pushMsg chat (toolResultMessage now tc (serverErrorResult tc.fnName _)))]
          simp [pushMsg, pairMap_append, List.filter_cons, hfn, pairMap, pairShape,
            toolResultMessage]

theorem runToolCalls_client (now : Int) (calls : List ToolCall) : ∀ st chat,
    (runToolCalls now st chat calls).toolResultsForClient =
      (runToolCalls now st chat calls).executedToolResults.map fun tr => tr.result := by
  induction calls with
  | nil => intro st chat; rfl
  | cons tc rest ih =>
    intro st chat
    unfold runToolCalls
    split
    · exact ih st chat
    · split
      · simp only [List.map_cons]
        rw [← ih st (pushMsg chat (invalidArgsToolMessage now tc))]
      · dsimp only []
        split
        · rename_i x hexec
          simp only [List.map_cons]
          rw [← ih x.2.1 (pushMsg x.2.2 (toolResultMessage now tc x.1))]
        · simp only [List.map_cons]
          rw [← ih st (pushMsg chat (toolResultMessage now tc (serverErrorResult tc.fnName _)))]

theorem runToolCalls_executed_ids (now : Int) (calls : List ToolCall) : ∀ st chat,
    (runToolCalls now st chat calls).executedToolResults.map (fun tr => tr.tool_call_id) =
      (calls.filter toolCallIsFn).map fun tc => tc.id := by
  induction calls with
  | nil => intro st chat; rfl
  | cons tc rest ih =>
    intro st chat
    unfold runToolCalls
    split
    · rename_i hne
      have hfn : toolCallIsFn tc = false := by
        simp [toolCallIsFn, beq_eq_false_iff_ne, hne]
      rw [ih st chat]
      simp [List.filter_cons, hfn]
    · rename_i hne
      have hfn : toolCallIsFn tc = true := by
        simp only [Decidable.not_not] at hne
        simp [toolCallIsFn, hne]
      split
      · dsimp only []
        simp only [List.map_cons]
        rw [ih st (pushMsg chat (invalidArgsToolMessage now tc))]
        simp [List.filter_cons, hfn]
      · dsimp only []
        split
        · rename_i x hexec
          simp only [List.map_cons]
          rw [ih x.2.1 (pushMsg x.2.2 (toolResultMessage now tc x.1))]
          simp [List.filter_cons, hfn]
        · simp only [List.map_cons]
          rw [ih st (pushMsg chat (toolResultMessage now tc (serverErrorResult tc.fnName _)))]
          simp [List.filter_cons, hfn]

theorem resMap_append (a b : List Message) : resMap (a ++ b) = resMap a ++ resMap b := by
  simp [resMap]

theorem runToolCalls_resMap (now : Int) (calls : List ToolCall) : ∀ st chat,
    resMap (runToolCalls now st chat calls).chat.messages =
      resMap chat.messages ++
        (runToolCalls now st chat calls).executedToolResults.map fun tr =>
          (Sender.tool, some tr.tool_call_id, some tr.result) := by
  induction calls with
  | nil => intro st chat; simp [runToolCalls]
  | cons tc rest ih =>
    intro st chat
    unfold runToolCalls
    split
    · exact ih st chat
    · split
      · dsimp only []
        rw [ih st (pushMsg chat (invalidArgsToolMessage now tc))]
        simp [pushMsg, resMap_append, resMap, resShape, invalidArgsToolMessage]
      · dsimp only []
        split
        · rename_i x hexec
          have hc := resMap_eq_of_dropFeedback _ _ (execTool_chat_shape _ _ _ _ _ _ _ hexec).2
          rw [ih x.2.1 (pushMsg x.2.2 (toolResultMessage now tc x.1))]
          simp [pushMsg, resMap_append, hc, resMap, resShape, toolResultMessage]
          exact hc
        · rw [ih st (pushMsg chat (toolResultMessage now tc (serverErrorResult tc.fnName _)))]
          simp [pushMsg, resMap_append, resMap, resShape, toolResultMessage]

end DServer

namespace DServer

theorem pairingOk_append_nonTool (msgs ext : List Message)
    (h : pairingOk msgs = true)
    (hext : ∀ m ∈ ext, m.sender ≠ Sender.tool) :
    pairingOk (msgs ++ ext) = true := by
  unfold pairingOk at h ⊢
  rw [pairMap_append, pairingAux_append, h]
  simp only [Bool.true_and, List.nil_append]
  apply pairingAux_nonTool
  intro s hs
  obtain ⟨m, hm, rfl⟩ := List.mem_map.mp hs
  exact hext m hm

theorem pairingAux_turn (old : List PairShape) (allIds fnIds : List String)
    (tail : List PairShape)
    (hold : pairingAux [] old = true)
    (hsub : ∀ i ∈ fnIds, i ∈ allIds)
    (hnodup : allIds.Nodup)
    (hfresh : ∀ i ∈ fnIds, aiIdCount old i = 0)
    (htail : ∀ s ∈ tail, s.sender ≠ Sender.tool) :
    pairingAux [] (old ++
      ({ sender := Sender.user, callIds := [], callId := none } : PairShape) ::
      ({ sender := Sender.ai, callIds := allIds, callId := none } : PairShape) ::
      ((fnIds.map fun i =>
          ({ sender := Sender.tool, callIds := [], callId := some i } : PairShape)) ++ tail)) =
      true := by
  rw [pairingAux_append, hold]
  simp only [Bool.true_and, List.nil_append]
  simp only [pairingAux]
  rw [show ((({ sender := Sender.user, callIds := [], callId := none } : PairShape)).sender ==
    Sender.tool) = false from rfl]
  rw [show ((({ sender := Sender.ai, callIds := allIds, callId := none } : PairShape)).sender ==
    Sender.tool) = false from rfl]
  simp only [if_false, Bool.false_eq_true, Bool.true_and]
  rw [pairingAux_append]
  have hts : pairingAux ((old ++
      [({ sender := Sender.user, callIds := [], callId := none } : PairShape)]) ++
      [({ sender := Sender.ai, callIds := allIds, callId := none } : PairShape)])
      (fnIds.map fun i =>
        ({ sender := Sender.tool, callIds := [], callId := some i } : PairShape)) = true := by
    apply pairingAux_toolShapes
    intro i hi
    rw [aiIdCount_append, aiIdCount_append, aiIdCount_singleton, aiIdCount_singleton]
    rw [hfresh i hi]
    have hcount := List.count_eq_one_of_mem hnodup (hsub i hi)
    simp [hcount]
  rw [hts]
  simp only [Bool.true_and]
  apply pairingAux_nonTool
  exact htail

/-- The tool calls the initial gateway response carries, if any. -/
def callsOf : InitResult → List ToolCall
  | .ok _ (some cs) _ => cs
  | _ => []

/-- C2: a chat turn preserves the request/result pairing invariant.
Hypotheses: the invariant holds of the stored session, the model's
tool-call ids are pairwise distinct, and none of them collides with a
call id already requested by an earlier assistant message of the
session. -/
theorem chat_turn_preserves_pairing
    (st : Store) (chat0 : Chat) (message mtype : String) (imageUrl : Option String)
    (aiModel referrer : String) (now : Int) (initResp : InitResult) (followResp : FollowResult)
    (h0 : pairingOk chat0.messages = true)
    (hnodup : ((callsOf initResp).map fun tc => tc.id).Nodup)
    (hfresh : ∀ tc ∈ callsOf initResp, aiIdCount (pairMap chat0.messages) tc.id = 0) :
    pairingOk (handleChatPost st chat0 message mtype imageUrl aiModel referrer now
      initResp followResp).chat.messages = true := by
  unfold handleChatPost
  cases initResp with
  | netError =>
    dsimp only []
    apply pairingOk_append_nonTool _ _ h0
    intro m hm
    rw [List.mem_singleton] at hm
    subst hm
    exact fun hc => Sender.noConfusion hc
  | badShape =>
    dsimp only []
    apply pairingOk_append_nonTool _ _ h0
    intro m hm
    rw [List.mem_singleton] at hm
    subst hm
    exact fun hc => Sender.noConfusion hc
  | ok content tool_calls finish_reason =>
    dsimp only []
    by_cases hcond : (tool_calls.isSome && finish_reason == "tool_calls") = true
    · rw [if_pos hcond]
      rw [Bool.and_eq_true] at hcond
      obtain ⟨hsome, -⟩ := hcond
      obtain ⟨cs, rfl⟩ := Option.isSome_iff_exists.mp hsome
      have hcs : callsOf (InitResult.ok content (some cs) finish_reason) = cs := rfl
      rw [hcs] at hnodup hfresh
      have key : ∀ tailMsgs : List Message, (∀ m ∈ tailMsgs, m.sender ≠ Sender.tool) →
          pairingOk ((runToolCalls now st
            (pushMsg (chatWithUserMessage chat0 message mtype imageUrl now)
              (assistantToolCallRequestMessage content ((some cs).getD []) now))
            ((some cs).getD [])).chat.messages ++ tailMsgs) = true := by
        intro tailMsgs htail
        unfold pairingOk
        rw [pairMap_append, runToolCalls_pairMap]
        have h2 : pairMap (pushMsg (chatWithUserMessage chat0 message mtype imageUrl now)
            (assistantToolCallRequestMessage content ((some cs).getD []) now)).messages =
            pairMap chat0.messages ++
              [({ sender := Sender.user, callIds := [], callId := none } : PairShape),
                ({ sender := Sender.ai, callIds := cs.map fun tc => tc.id,
                   callId := none } : PairShape)] := by
          simp [pushMsg, chatWithUserMessage, userMessageToSave,
            assistantToolCallRequestMessage, pairMap, pairShape, List.map_map, Function.comp]
        rw [h2]
        have ht := pairingAux_turn (pairMap chat0.messages) (cs.map fun tc => tc.id)
          ((cs.filter toolCallIsFn).map fun tc => tc.id) (pairMap tailMsgs) h0
          (by
            intro i hi
            obtain ⟨tc, htc, rfl⟩ := List.mem_map.mp hi
            exact List.mem_map.mpr ⟨tc, List.mem_of_mem_filter htc, rfl⟩)
          hnodup
          (by
            intro i hi
            obtain ⟨tc, htc, rfl⟩ := List.mem_map.mp hi
            exact hfresh tc (List.mem_of_mem_filter htc))
          (by
            intro s hs
            obtain ⟨m, hm, rfl⟩ := List.mem_map.mp hs
            exact htail m hm)
        simpa [List.append_assoc, List.map_map, Function.comp] using ht
      cases followResp with
      | netError =>
        dsimp only []
        simpa using key [] (by simp)
      | ok fcontent =>
        unfold finishTurn
        dsimp only []
        split
        · rename_i s hs
          split
          · apply key [{ sender := Sender.ai, message := some s, mtype := "text", timestamp := now }]
            intro m hm
            rw [List.mem_singleton] at hm
            subst hm
            exact fun hc => Sender.noConfusion hc
          · simpa using key [] (by simp)
        · simpa using key [] (by simp)
    · rw [if_neg hcond]
      unfold finishTurn
      dsimp only []
      split
      · rename_i s hs
        split
        · simp only [pushMsg, chatWithUserMessage, List.append_assoc, List.singleton_append]
          apply pairingOk_append_nonTool _ _ h0
          intro m hm
          simp only [List.mem_cons, List.mem_singleton, List.not_mem_nil, or_false] at hm
          rcases hm with rfl | rfl
          · exact fun hc => Sender.noConfusion hc
          · exact fun hc => Sender.noConfusion hc
        · apply pairingOk_append_nonTool _ _ h0
          intro m hm
          rw [List.mem_singleton] at hm
          subst hm
          exact fun hc => Sender.noConfusion hc
      · apply pairingOk_append_nonTool _ _ h0
        intro m hm
        rw [List.mem_singleton] at hm
        subst hm
        exact fun hc => Sender.noConfusion hc

end DServer

namespace DServer

theorem execTool_log_mood (a : ToolArgs) (st : Store) (c : Chat) :
    execTool "log_mood" a st c = execLogMood a st c := rfl

theorem execTool_create_task (a : ToolArgs) (st : Store) (c : Chat) :
    execTool "create_task" a st c = execCreateTask a st c := rfl

theorem execTool_get_tasks (a : ToolArgs) (st : Store) (c : Chat) :
    execTool "get_tasks" a st c = execGetTasks a st c := rfl

theorem execTool_get_mood_history (a : ToolArgs) (st : Store) (c : Chat) :
    execTool "get_mood_history" a st c = execGetMoodHistory a st c := rfl

theorem execTool_give_feedback (a : ToolArgs) (st : Store) (c : Chat) :
    execTool "give_feedback" a st c = execGiveFeedback a st c := rfl

end DServer

namespace DServer

def c1_msg0 : Message := { sender := .ai, message := some "hello", timestamp := 1 }

def c1_msg1 : Message := { sender := .user, message := some "hi", timestamp := 2 }

def c1_chat : Chat := { sessionId := "s1", messages := [c1_msg0, c1_msg1] }

def c1_args : ToolArgs := { messageIndex := some 0, rating := some 5 }

/-- C1 counterexample: in a session of 2 messages (an assistant message
at position 0, then a user message at position 1), `give_feedback` with
`messageIndex 0` would, per the claim, target position
`total_messages - 1 - 0 = 1` — the user message — and therefore fail
with no mutation.  The code instead succeeds and sets the feedback of
the message at position 0 counted from the START, leaving position 1
untouched: the index is not resolved as `total_messages - 1 - i`. -/
theorem c1_counterexample :
    execTool "give_feedback" c1_args { now := 100 } c1_chat =
      .ok ({ success := true,
             message := some "Feedback (5) recorded for message at index 0." },
           { now := 100 },
           { sessionId := "s1", messages := [{ c1_msg0 with feedback := some 5 }, c1_msg1] }) ∧
    c1_chat.messages.length = 2 ∧ c1_msg1.sender = Sender.user := by
  refine ⟨?_, rfl, rfl⟩
  rfl

/-- C1 (amended): for every executed `give_feedback` call with argument
`messageIndex` i, the targeted message is the one at position i counted
from the START of the session's message sequence (0 is the oldest); the
call fails (throwing, so the loop stores an error result and mutates no
prior message) when i is out of range, when the target's sender is not
the assistant, or when the rating is outside 1-5; on success exactly the
target's feedback field is set. -/
theorem c1_give_feedback_start_indexed (st : Store) (chat : Chat) (args : ToolArgs)
    (now : Int) (i r : Int) (hi : args.messageIndex = some i) (hr : args.rating = some r) :
    (∀ m, 0 ≤ i → i < (chat.messages.length : Int) → chat.messages[i.toNat]? = some m →
      m.sender = Sender.ai → 1 ≤ r → r ≤ 5 →
      execTool "give_feedback" args st chat =
        .ok ({ success := true,
               message := some ("Feedback (" ++ toString r ++
                 ") recorded for message at index " ++ toString i ++ ".") },
             st,
             { chat with messages :=
                chat.messages.set i.toNat { m with feedback := some r } })) ∧
    (i < 0 ∨ (chat.messages.length : Int) ≤ i →
      execTool "give_feedback" args st chat =
        .error ("Invalid message index " ++ toString i ++ ". Session has " ++
          toString chat.messages.length ++ " messages.")) ∧
    (∀ m, 0 ≤ i → i < (chat.messages.length : Int) → chat.messages[i.toNat]? = some m →
      m.sender ≠ Sender.ai →
      execTool "give_feedback" args st chat =
        .error "Feedback can only be given for AI messages at the specified index.") ∧
    (∀ m, 0 ≤ i → i < (chat.messages.length : Int) → chat.messages[i.toNat]? = some m →
      m.sender = Sender.ai → (r < 1 ∨ r > 5) →
      execTool "give_feedback" args st chat =
        .error "Rating must be an integer between 1 and 5.") ∧
    (∀ e, execTool "give_feedback" args st chat = .error e →
      ∀ tc : ToolCall, tc.ctype = "function" → tc.fnName = "give_feedback" →
        tc.argsParsed = .ok args →
        (runToolCalls now st chat [tc]).store = st ∧
        (runToolCalls now st chat [tc]).chat.messages =
          chat.messages ++ [toolResultMessage now tc (serverErrorResult "give_feedback" e)]) := by
  refine ⟨?_, ?_, ?_, ?_, ?_⟩
  · intro m h0i hilen hm hsender h1r hr5
    simp only [execTool_give_feedback, execGiveFeedback, hi, hr]
    rw [if_neg (by omega)]
    simp only [hm]
    rw [if_neg (by simp [hsender])]
    rw [if_neg (by omega)]
  · intro hrange
    simp only [execTool_give_feedback, execGiveFeedback, hi]
    rw [if_pos hrange]
  · intro m h0i hilen hm hsender
    simp only [execTool_give_feedback, execGiveFeedback, hi]
    rw [if_neg (by omega)]
    simp only [hm]
    rw [if_pos hsender]
  · intro m h0i hilen hm hsender hout
    simp only [execTool_give_feedback, execGiveFeedback, hi, hr]
    rw [if_neg (by omega)]
    simp only [hm]
    rw [if_neg (by simp [hsender])]
    rw [if_pos hout]
  · intro e he tc hty hname hparsed
    refine ⟨?_, ?_⟩ <;>
      simp [runToolCalls, hty, hparsed, hname, he, pushMsg]

/-- C1 witness: the success case at a concrete session — index 0 with a
rating of 5 targets the oldest (assistant) message and records the
feedback there. -/
theorem c1_witness :
    execTool "give_feedback" c1_args { now := 100 } c1_chat =
      .ok ({ success := true,
             message := some "Feedback (5) recorded for message at index 0." },
           { now := 100 },
           { sessionId := "s1", messages := [{ c1_msg0 with feedback := some 5 }, c1_msg1] }) :=
  (c1_give_feedback_start_indexed { now := 100 } c1_chat c1_args 0 0 5 rfl rfl).1 c1_msg0
    (by decide) (by decide) rfl rfl (by decide) (by decide)

end DServer

namespace DServer

/-- C9: `create_task` with a dueDate argument that cannot be parsed as a
date still creates the task — with the given title and description but
no due date — and returns `success := true` (with the fresh task id). -/
theorem c9_create_task_invalid_due_date (st : Store) (chat : Chat) (args : ToolArgs)
    (title : String) (ht : truthyS args.title = some title)
    (hd : args.dueDate = some JsDate.invalid) :
    execTool "create_task" args st chat =
      .ok ({ success := true,
             message := some ("Task \"" ++ title ++ "\" created successfully."),
             taskId := some (mkObjectId st.freshCount) },
           { st with
             tasks := st.tasks ++ [{ id := mkObjectId st.freshCount, title := title, description := args.description, dueDate := none, completed := false, createdAt := st.now }],
             freshCount := st.freshCount + 1 }, chat) := by
  simp only [execTool_create_task, execCreateTask, hd, ht, String.append_empty]

def c9_args : ToolArgs := { title := some "Laundry", dueDate := some JsDate.invalid }

/-- C9 witness: a concrete `create_task` call with the unparseable date
string still inserts the task and succeeds. -/
theorem c9_witness :
    execTool "create_task" c9_args { now := 100 } { sessionId := "s" } =
      .ok ({ success := true,
             message := some "Task \"Laundry\" created successfully.",
             taskId := some "oid0" },
           { tasks := [{ id := "oid0", title := "Laundry", description := none, dueDate := none, completed := false, createdAt := 100 }],
             moods := [], now := 100, freshCount := 1 },
           { sessionId := "s" }) :=
  c9_create_task_invalid_due_date { now := 100 } { sessionId := "s" } c9_args "Laundry" rfl rfl

/-- C7 counterexample: a `days` argument that is NOT a positive integer
does not fail — `parseInt(days) || 30` silently defaults both a
non-numeric value (NaN) and 0 to a 30-day window, and the query runs,
returning a success result. -/
theorem c7_counterexample :
    execTool "get_mood_history" { days := PInt.nan } { now := 100 } { sessionId := "s" } =
      .ok ({ success := true, message := some "No mood logs found in the last 30 days." },
           { now := 100 }, { sessionId := "s" }) ∧
    execTool "get_mood_history" { days := PInt.val 0 } { now := 100 } { sessionId := "s" } =
      .ok ({ success := true, message := some "No mood logs found in the last 30 days." },
           { now := 100 }, { sessionId := "s" }) :=
  ⟨rfl, rfl⟩

/-- C7 (amended): a `days` argument that parses to a NEGATIVE integer
fails with an error result (no query); a `days` argument that is absent,
non-numeric, or zero is silently defaulted to a 30-day window (the query
still runs); and a positive `days` with zero matching mood logs yields a
success result carrying an explanatory message, not an error. -/
theorem c7_get_mood_history_days_policy (st : Store) (chat : Chat) (args : ToolArgs) :
    (∀ n : Int, args.days = PInt.val n → n < 0 →
      execTool "get_mood_history" args st chat =
        .error "Number of days must be a positive integer.") ∧
    (args.days = PInt.nan ∨ args.days = PInt.val 0 →
      execTool "get_mood_history" args st chat =
        execTool "get_mood_history" { args with days := PInt.val 30 } st chat) ∧
    (∀ n : Int, args.days = PInt.val n → 0 < n →
      st.moods.filter (moodWindowFilter st.now n) = [] →
      execTool "get_mood_history" args st chat =
        .ok ({ success := true,
               message := some ("No mood logs found in the last " ++ toString n ++ " days.") },
             st, chat)) := by
  refine ⟨?_, ?_, ?_⟩
  · intro n hd hneg
    have h0 : (n == 0) = false := by
      rw [beq_eq_false_iff_ne]
      omega
    simp only [execTool_get_mood_history, execGetMoodHistory, hd, jsDaysOr30, h0,
      Bool.false_eq_true, if_false]
    rw [if_pos (by omega)]
  · intro hd
    have h30 : ((30 : Int) == 0) = false := by decide
    have h00 : ((0 : Int) == 0) = true := by decide
    rcases hd with hd | hd <;>
      simp only [execTool_get_mood_history, execGetMoodHistory, hd, jsDaysOr30, h30, h00,
        Bool.false_eq_true, if_false, eq_self_iff_true, if_true]
  · intro n hd hpos hfil
    have h0 : (n == 0) = false := by
      rw [beq_eq_false_iff_ne]
      omega
    simp only [execTool_get_mood_history, execGetMoodHistory, hd, jsDaysOr30, h0,
      Bool.false_eq_true, if_false]
    rw [if_neg (by omega), hfil]
    rfl

/-- C7 witness: at concrete inputs — a negative count fails, a
non-numeric count is defaulted to the 30-day query, and a positive count
over an empty store succeeds with the explanatory message. -/
theorem c7_witness :
    execTool "get_mood_history" { days := PInt.val (-3) } { now := 100 } { sessionId := "s" } =
      .error "Number of days must be a positive integer." ∧
    execTool "get_mood_history" { days := PInt.nan } { now := 100 } { sessionId := "s" } =
      execTool "get_mood_history" { days := PInt.val 30 } { now := 100 } { sessionId := "s" } ∧
    execTool "get_mood_history" { days := PInt.val 7 } { now := 100 } { sessionId := "s" } =
      .ok ({ success := true, message := some "No mood logs found in the last 7 days." },
           { now := 100 }, { sessionId := "s" }) :=
  ⟨(c7_get_mood_history_days_policy { now := 100 } { sessionId := "s" }
      { days := PInt.val (-3) }).1 (-3) rfl (by decide),
   (c7_get_mood_history_days_policy { now := 100 } { sessionId := "s" }
      { days := PInt.nan }).2.1 (Or.inl rfl),
   (c7_get_mood_history_days_policy { now := 100 } { sessionId := "s" }
      { days := PInt.val 7 }).2.2 7 rfl (by decide) rfl⟩

end DServer

namespace DServer

/-- C10: the read tools silently truncate — `get_tasks` returns at most
25 tasks (exactly `min matching 25`) and `get_mood_history` at most 50
entries (exactly `min matching 50`), and when more matching records
exist than the cap, the success result carries no message, error or any
other indication of truncation. -/
theorem c10_read_tools_truncate (st : Store) (chat : Chat) (args : ToolArgs) :
    (∃ r, execTool "get_tasks" args st chat = .ok (r, st, chat) ∧
      (r.tasks.getD []).length = min (st.tasks.filter (getTasksFilter args)).length 25 ∧
      ((st.tasks.filter (getTasksFilter args)).length > 25 →
        r.success = true ∧ r.message = none ∧ r.error = none)) ∧
    (∀ n : Int, jsDaysOr30 args.days = n → 0 < n →
      ∃ r, execTool "get_mood_history" args st chat = .ok (r, st, chat) ∧
        (r.moods.getD []).length = min (st.moods.filter (moodWindowFilter st.now n)).length 50 ∧
        ((st.moods.filter (moodWindowFilter st.now n)).length > 50 →
          r.success = true ∧ r.message = none ∧ r.error = none)) := by
  constructor
  · have hlen : ((sortLE taskLE (st.tasks.filter (getTasksFilter args))).take 25).length =
        min (st.tasks.filter (getTasksFilter args)).length 25 := by
      rw [List.length_take, length_sortLE, Nat.min_comm]
    simp only [execTool_get_tasks, execGetTasks]
    by_cases h0 : ((((sortLE taskLE (st.tasks.filter (getTasksFilter args))).take 25).length == 0)
        = true)
    · rw [if_pos h0]
      rw [beq_iff_eq] at h0
      rw [h0] at hlen
      refine ⟨_, rfl, ?_, ?_⟩
      · simp only [Option.getD_none, List.length_nil]
        omega
      · intro hgt
        omega
    · rw [if_neg h0]
      rw [beq_iff_eq] at h0
      refine ⟨_, rfl, ?_, fun _ => ⟨rfl, rfl, rfl⟩⟩
      simp only [Option.getD_some, List.length_map]
      omega
  · intro n hdays hpos
    have hlen : ((sortLE moodLE (st.moods.filter (moodWindowFilter st.now n))).take 50).length =
        min (st.moods.filter (moodWindowFilter st.now n)).length 50 := by
      rw [List.length_take, length_sortLE, Nat.min_comm]
    simp only [execTool_get_mood_history, execGetMoodHistory, hdays]
    rw [if_neg (by omega)]
    by_cases h0 : ((((sortLE moodLE (st.moods.filter (moodWindowFilter st.now n))).take 50).length
        == 0) = true)
    · rw [if_pos h0]
      rw [beq_iff_eq] at h0
      rw [h0] at hlen
      refine ⟨_, rfl, ?_, ?_⟩
      · simp only [Option.getD_none, List.length_nil]
        omega
      · intro hgt
        omega
    · rw [if_neg h0]
      rw [beq_iff_eq] at h0
      refine ⟨_, rfl, ?_, fun _ => ⟨rfl, rfl, rfl⟩⟩
      simp only [Option.getD_some, List.length_map]
      omega

def c10_store : Store :=
  { tasks := (List.range 26).map fun k =>
      { id := toString k, title := "t" ++ toString k, createdAt := (k : Int) },
    moods := (List.range 51).map fun k => { mood := 5, createdAt := (k : Int) + 50 },
    now := 100 }

def c10_args : ToolArgs := { days := PInt.val 100 }

/-- C10 witness: a store holding 26 matching tasks and 51 mood logs in
the 100-day window — both reads cap at 25 and 50 respectively with no
truncation indication. -/
theorem c10_witness :
    (∃ r, execTool "get_tasks" c10_args c10_store { sessionId := "s" } =
        .ok (r, c10_store, { sessionId := "s" }) ∧
      (r.tasks.getD []).length = min (c10_store.tasks.filter (getTasksFilter c10_args)).length 25 ∧
      ((c10_store.tasks.filter (getTasksFilter c10_args)).length > 25 →
        r.success = true ∧ r.message = none ∧ r.error = none)) ∧
    (∃ r, execTool "get_mood_history" c10_args c10_store { sessionId := "s" } =
        .ok (r, c10_store, { sessionId := "s" }) ∧
      (r.moods.getD []).length =
        min (c10_store.moods.filter (moodWindowFilter c10_store.now 100)).length 50 ∧
      ((c10_store.moods.filter (moodWindowFilter c10_store.now 100)).length > 50 →
        r.success = true ∧ r.message = none ∧ r.error = none)) :=
  ⟨(c10_read_tools_truncate c10_store { sessionId := "s" } c10_args).1,
   (c10_read_tools_truncate c10_store { sessionId := "s" } c10_args).2 100 rfl (by decide)⟩

end DServer

namespace DServer

theorem pairMap_chat2 (chat0 : Chat) (message mtype : String) (imageUrl : Option String)
    (content : Option String) (calls : List ToolCall) (now : Int) :
    pairMap (pushMsg (chatWithUserMessage chat0 message mtype imageUrl now)
      (assistantToolCallRequestMessage content calls now)).messages =
      pairMap chat0.messages ++
        [({ sender := Sender.user, callIds := [], callId := none } : PairShape),
         ({ sender := Sender.ai, callIds := calls.map fun tc => tc.id,
            callId := none } : PairShape)] := by
  simp [pushMsg, chatWithUserMessage, userMessageToSave, assistantToolCallRequestMessage,
    pairMap, pairShape, List.map_map, Function.comp]

/-- C3: given an assistant turn requesting tool calls (each of wire type
"function"), the session after the turn holds — after the stored user
message and the assistant tool-call-request message — exactly one
tool-kind result message per requested call, in the model's request
order, regardless of each call's success or failure; and the per-call
client result list has one entry per call. -/
theorem c3_tool_results_in_request_order
    (st : Store) (chat0 : Chat) (message mtype : String) (imageUrl : Option String)
    (aiModel referrer : String) (now : Int) (followResp : FollowResult)
    (content : Option String) (calls : List ToolCall)
    (hfn : ∀ tc ∈ calls, tc.ctype = "function") :
    (∃ tail,
      pairMap (handleChatPost st chat0 message mtype imageUrl aiModel referrer now
          (.ok content (some calls) "tool_calls") followResp).chat.messages =
        pairMap chat0.messages ++
          ({ sender := Sender.user, callIds := [], callId := none } : PairShape) ::
          ({ sender := Sender.ai, callIds := calls.map fun tc => tc.id,
             callId := none } : PairShape) ::
          ((calls.map fun tc =>
              ({ sender := Sender.tool, callIds := [], callId := some tc.id } : PairShape)) ++
            tail) ∧
      (tail = [] ∨
        tail = [({ sender := Sender.ai, callIds := [], callId := none } : PairShape)])) ∧
    (∀ st2 chat2, (runToolCalls now st2 chat2 calls).toolResultsForClient.length =
      calls.length) := by
  have hfilter : calls.filter toolCallIsFn = calls :=
    List.filter_eq_self.mpr fun tc h => by simp [toolCallIsFn, hfn tc h]
  have hp : ∀ (c : Chat) (m : Message),
      pairMap (pushMsg c m).messages = pairMap c.messages ++ [pairShape m] :=
    fun _ _ => by simp [pushMsg, pairMap]
  constructor
  · unfold handleChatPost
    dsimp only []
    rw [if_pos (by simp)]
    cases followResp with
    | netError =>
      refine ⟨[], ?_, Or.inl rfl⟩
      dsimp only []
      rw [runToolCalls_pairMap, pairMap_chat2]
      simp [hfilter]
    | ok fcontent =>
      unfold finishTurn
      dsimp only []
      split
      · split
        · refine ⟨[({ sender := Sender.ai, callIds := [], callId := none } : PairShape)],
            ?_, Or.inr rfl⟩
          rw [hp, runToolCalls_pairMap, pairMap_chat2]
          simp [hfilter, pairShape]
        · refine ⟨[], ?_, Or.inl rfl⟩
          rw [runToolCalls_pairMap, pairMap_chat2]
          simp [hfilter]
      · refine ⟨[], ?_, Or.inl rfl⟩
        rw [runToolCalls_pairMap, pairMap_chat2]
        simp [hfilter]
  · intro st2 chat2
    have h1 := congrArg List.length (runToolCalls_client now calls st2 chat2)
    have h2 := congrArg List.length (runToolCalls_executed_ids now calls st2 chat2)
    rw [hfilter] at h2
    simp only [List.length_map] at h1 h2
    omega

end DServer

namespace DServer

def fx_call_a : ToolCall :=
  { id := "a1", ctype := "function", fnName := "log_mood", argumentsRaw := "bad",
    argsParsed := .ok {} }

def fx_call_b : ToolCall :=
  { id := "b2", ctype := "function", fnName := "create_task", argumentsRaw := "raw",
    argsParsed := .ok { title := some "T" } }

def fx_call_c : ToolCall :=
  { id := "c3", ctype := "function", fnName := "nope", argumentsRaw := "raw",
    argsParsed := .ok {} }

/-- C3 witness: three concrete calls — a failing `log_mood` (missing
mood), a succeeding `create_task`, and an unknown tool — still produce
exactly three client results. -/
theorem c3_witness :
    (runToolCalls 100 { now := 100 } { sessionId := "s" }
      [fx_call_a, fx_call_b, fx_call_c]).toolResultsForClient.length = 3 :=
  (c3_tool_results_in_request_order { now := 100 } { sessionId := "s" } "m" "text" none
    "openai" "ref" 100 (.ok none) none [fx_call_a, fx_call_b, fx_call_c]
    (by
      intro tc htc
      simp only [List.mem_cons, List.not_mem_nil, or_false] at htc
      rcases htc with rfl | rfl | rfl <;> rfl)).2 { now := 100 } { sessionId := "s" }

/-- C4: tool failures are contained at the executor boundary: every
function-type call of a turn yields exactly one stored result (none are
skipped); a malformed-JSON argument payload becomes a
`success := false` error result for that single call, with the store
passed unchanged to the remaining calls, which still run; and a thrown
execution error is caught into a `success := false` server-error
result rather than escaping. -/
theorem c4_tool_errors_contained (now : Int) (st : Store) (chat : Chat) :
    (∀ calls : List ToolCall,
      (runToolCalls now st chat calls).executedToolResults.map (fun tr => tr.tool_call_id) =
        (calls.filter toolCallIsFn).map fun tc => tc.id) ∧
    (∀ (tc : ToolCall) (rest : List ToolCall) (e : String),
      tc.ctype = "function" → tc.argsParsed = .error e →
      (runToolCalls now st chat (tc :: rest)).toolResultsForClient =
        invalidArgsResult tc.fnName ::
          (runToolCalls now st (pushMsg chat (invalidArgsToolMessage now tc))
            rest).toolResultsForClient ∧
      (runToolCalls now st chat (tc :: rest)).store =
        (runToolCalls now st (pushMsg chat (invalidArgsToolMessage now tc)) rest).store ∧
      (invalidArgsResult tc.fnName).success = false ∧
      (invalidArgsResult tc.fnName).error =
        some ("Invalid arguments format received from AI for " ++ tc.fnName ++ ".")) ∧
    (∀ (tc : ToolCall) (args : ToolArgs) (e : String),
      tc.ctype = "function" → tc.argsParsed = .ok args →
      execTool tc.fnName args st chat = .error e →
      (runToolCalls now st chat [tc]).toolResultsForClient = [serverErrorResult tc.fnName e] ∧
      (serverErrorResult tc.fnName e).success = false) := by
  refine ⟨fun calls => runToolCalls_executed_ids now calls st chat, ?_, ?_⟩
  · intro tc rest e hty hparse
    refine ⟨?_, ?_, rfl, rfl⟩ <;> simp [runToolCalls, hty, hparse]
  · intro tc args e hty hparse hexec
    refine ⟨?_, rfl⟩
    simp [runToolCalls, hty, hparse, hexec]

def fx_call_bad : ToolCall :=
  { id := "x1", ctype := "function", fnName := "log_mood", argumentsRaw := "not json",
    argsParsed := .error "Unexpected token" }

/-- C4 witness: a malformed-arguments call followed by a valid sibling
at a concrete store — the head becomes the invalid-arguments error
result and the sibling runs from the unchanged store. -/
theorem c4_witness :
    (runToolCalls 100 { now := 100 } { sessionId := "s" }
        [fx_call_bad, fx_call_b]).toolResultsForClient =
      invalidArgsResult "log_mood" ::
        (runToolCalls 100 { now := 100 }
          (pushMsg { sessionId := "s" } (invalidArgsToolMessage 100 fx_call_bad))
          [fx_call_b]).toolResultsForClient ∧
    (runToolCalls 100 { now := 100 } { sessionId := "s" }
        [fx_call_bad, fx_call_b]).store =
      (runToolCalls 100 { now := 100 }
        (pushMsg { sessionId := "s" } (invalidArgsToolMessage 100 fx_call_bad))
        [fx_call_b]).store ∧
    (invalidArgsResult "log_mood").success = false ∧
    (invalidArgsResult "log_mood").error =
      some "Invalid arguments format received from AI for log_mood." :=
  (c4_tool_errors_contained 100 { now := 100 } { sessionId := "s" }).2.1 fx_call_bad
    [fx_call_b] "Unexpected token" rfl rfl

end DServer

namespace DServer

/-- C5: gateway failures commit the work already done.  After an
initial-call failure the saved session still gains the inbound user
message and the caller gets the retryable service-error response; after
a follow-up-call failure the saved session holds the user message, the
assistant request and one tool message per executed call carrying its
result, and the caller gets the distinct partial-success response
listing exactly the results of the executed calls. -/
theorem c5_gateway_failure_persists_state
    (st : Store) (chat0 : Chat) (message mtype : String) (imageUrl : Option String)
    (aiModel referrer : String) (now : Int) (followResp : FollowResult)
    (content : Option String) (calls : List ToolCall) :
    ((handleChatPost st chat0 message mtype imageUrl aiModel referrer now .netError
        followResp).chat.messages =
      chat0.messages ++ [userMessageToSave message mtype imageUrl now] ∧
     (handleChatPost st chat0 message mtype imageUrl aiModel referrer now .netError
        followResp).response =
      .initialFailure "Error: The AI service failed to respond. Please try again later.") ∧
    ((handleChatPost st chat0 message mtype imageUrl aiModel referrer now
        (.ok content (some calls) "tool_calls") .netError).response =
      .followUpFailure
        "Executed requested actions, but the AI failed to provide a final response."
        ((runToolCalls now st (pushMsg (chatWithUserMessage chat0 message mtype imageUrl now)
            (assistantToolCallRequestMessage content calls now))
          calls).executedToolResults.map fun tr => tr.result)
        chat0.sessionId now ∧
     resMap (handleChatPost st chat0 message mtype imageUrl aiModel referrer now
        (.ok content (some calls) "tool_calls") .netError).chat.messages =
      resMap (chat0.messages ++ [userMessageToSave message mtype imageUrl now] ++
          [assistantToolCallRequestMessage content calls now]) ++
        ((runToolCalls now st (pushMsg (chatWithUserMessage chat0 message mtype imageUrl now)
            (assistantToolCallRequestMessage content calls now))
          calls).executedToolResults.map fun tr =>
            (Sender.tool, some tr.tool_call_id, some tr.result)) ∧
     ((runToolCalls now st (pushMsg (chatWithUserMessage chat0 message mtype imageUrl now)
         (assistantToolCallRequestMessage content calls now))
       calls).executedToolResults.map fun tr => tr.tool_call_id) =
      (calls.filter toolCallIsFn).map fun tc => tc.id) := by
  refine ⟨⟨rfl, rfl⟩, ?_, ?_, runToolCalls_executed_ids now calls _ _⟩
  · unfold handleChatPost
    dsimp only []
    rw [if_pos (by simp)]
    dsimp only [Option.getD]
    rw [runToolCalls_client, runToolCalls_sessionId]
    rfl
  · unfold handleChatPost
    dsimp only []
    rw [if_pos (by simp)]
    dsimp only [Option.getD]
    rw [runToolCalls_resMap]
    rfl

/-- C6: the follow-up gateway call issued after tool execution never
carries tool definitions or a tool_choice field — for every chat turn
entering the tool-execution path the request trace is exactly the
initial payload (tools plus auto tool_choice attached) followed by a
follow-up payload with `tools = none` and `tool_choice = none`. -/
theorem c6_followup_has_no_tools
    (st : Store) (chat0 : Chat) (message mtype : String) (imageUrl : Option String)
    (aiModel referrer : String) (now : Int) (followResp : FollowResult)
    (content : Option String) (calls : List ToolCall) :
    ∃ p1 p2,
      (handleChatPost st chat0 message mtype imageUrl aiModel referrer now
        (.ok content (some calls) "tool_calls") followResp).payloads = [p1, p2] ∧
      p1.tools = some aiTools ∧ p1.tool_choice = some "auto" ∧
      p2.tools = none ∧ p2.tool_choice = none := by
  unfold handleChatPost
  dsimp only []
  rw [if_pos (by simp)]
  cases followResp with
  | netError => exact ⟨_, _, rfl, by rfl, by rfl, rfl, rfl⟩
  | ok fcontent =>
    unfold finishTurn
    dsimp only []
    exact ⟨_, _, rfl, by rfl, by rfl, rfl, rfl⟩

/-- Discriminates the ordinary success response of the chat endpoint
from its error responses. -/
def isSuccessResponse : ChatResponse → Bool
  | .success _ _ _ _ => true
  | _ => false

def fx_call_log8 : ToolCall :=
  { id := "call1", ctype := "function", fnName := "log_mood", argumentsRaw := "raw",
    argsParsed := .ok { mood := PInt.val 8 } }

def c8_out : TurnOut :=
  handleChatPost { now := 100 } { sessionId := "s2" } "log 8" "text" none "openai" "ref" 100
    (.ok none (some [fx_call_log8]) "tool_calls") (.ok none)

/-- C8 counterexample: a turn whose follow-up response has null content —
the session ends with exactly the user message, the assistant request
and the tool result (the empty final assistant message is NOT stored,
neither as-is nor as a placeholder; the stored-placeholder line in the
source is commented out), even though the turn completes successfully. -/
theorem c8_counterexample :
    c8_out.chat.messages.map (fun m => m.sender) = [Sender.user, Sender.ai, Sender.tool] ∧
    isSuccessResponse c8_out.response = true :=
  ⟨rfl, rfl⟩

/-- C8 (amended): after a tool round, a final assistant message whose
content is empty or null is never treated as an error: the turn still
completes with the ordinary success response, but NO assistant message
is appended to the session — the saved messages are exactly those left
by the tool loop. -/
theorem c8_empty_final_message
    (st : Store) (chat0 : Chat) (message mtype : String) (imageUrl : Option String)
    (aiModel referrer : String) (now : Int) (content : Option String)
    (calls : List ToolCall) (fc : Option String)
    (hfc : fc = none ∨ fc = some "") :
    (handleChatPost st chat0 message mtype imageUrl aiModel referrer now
        (.ok content (some calls) "tool_calls") (.ok fc)).chat.messages =
      (runToolCalls now st (pushMsg (chatWithUserMessage chat0 message mtype imageUrl now)
        (assistantToolCallRequestMessage content calls now)) calls).chat.messages ∧
    isSuccessResponse (handleChatPost st chat0 message mtype imageUrl aiModel referrer now
        (.ok content (some calls) "tool_calls") (.ok fc)).response = true := by
  have htr : truthyS fc = none := by rcases hfc with rfl | rfl <;> rfl
  unfold handleChatPost finishTurn
  dsimp only []
  rw [if_pos (by simp)]
  rw [htr]
  exact ⟨rfl, rfl⟩

/-- C8 witness: the concrete run behind the counterexample satisfies the
amended claim — nothing appended after the tool messages, response
successful. -/
theorem c8_witness :
    c8_out.chat.messages =
      (runToolCalls 100 { now := 100 }
        (pushMsg (chatWithUserMessage { sessionId := "s2" } "log 8" "text" none 100)
          (assistantToolCallRequestMessage none [fx_call_log8] 100))
        [fx_call_log8]).chat.messages ∧
    isSuccessResponse c8_out.response = true :=
  c8_empty_final_message { now := 100 } { sessionId := "s2" } "log 8" "text" none "openai"
    "ref" 100 none [fx_call_log8] none (Or.inl rfl)

/-- C2 witness: a concrete turn over an empty session with one fresh
tool call preserves the pairing invariant. -/
theorem c2_witness :
    pairingOk (handleChatPost { now := 100 } { sessionId := "s2" } "log 8" "text" none
      "openai" "ref" 100 (.ok none (some [fx_call_log8]) "tool_calls")
      (.ok (some "done"))).chat.messages = true :=
  chat_turn_preserves_pairing { now := 100 } { sessionId := "s2" } "log 8" "text" none
    "openai" "ref" 100 (.ok none (some [fx_call_log8]) "tool_calls") (.ok (some "done"))
    rfl (by simp [callsOf, fx_call_log8]) (fun tc _ => rfl)

end DServer
